import Mathlib

/-!
Verification of the case-find scraper (src/scraper.py) against its
natural-language specification.

The Python code drives a browser; everything the browser delivers (page
text, tables, anchors, the displayed CAPTCHA code, order sub-pages) is
modelled as explicit input data (`Page`, `Site`).  The pure parsing and
extraction logic of scraper.py is translated function by function:

  * `extract_filing_date` / `extract_next_hearing_date` — the two regex
    extractions on the listing-info cell text (scraper.py lines 179-191);
  * `parse_order_links` — scraper.py lines 97-119;
  * `parse_all_tables` — scraper.py lines 54-95;
  * `scrape_case_data` — the post-form-fill part of scraper.py lines
    122-262, with the browser waits turned into `Option`-valued oracle
    fields of `Site` (`none` = the wait timed out) and the raised Python
    exceptions turned into `Except PyExn`;
  * `runMain` — the `__main__` dispatcher of scraper.py lines 264-294,
    returning the printed JSON document and the process exit code.

Digits are modelled as ASCII digits (the DD/MM/YYYY patterns); `.lower()`
is `Char.toLower` (ASCII); both match the data the site serves.
-/

/-- Boolean prefix test on character lists. -/
def prefixOfB : List Char → List Char → Bool
  | [], _ => true
  | _ :: _, [] => false
  | p :: ps, c :: cs => p == c && prefixOfB ps cs

/-- Boolean substring test on character lists (Python's `pat in s`). -/
def containsSub (pat : List Char) : List Char → Bool
  | [] => pat.isEmpty
  | c :: cs => prefixOfB pat (c :: cs) || containsSub pat cs

/-- Python `pat in hay` on strings. -/
def containsStr (hay pat : String) : Bool :=
  containsSub pat.toList hay.toList

/-- Python `s.lower()` (ASCII case folding, as the markers are ASCII). -/
def lowerStr (s : String) : String :=
  String.mk (s.toList.map Char.toLower)

/-- One step of the regex `\d{2}/\d{2}/\d{4}`: if the list starts with a
date of that shape, return it (the capture group). -/
def dateAt : List Char → Option String
  | d1 :: d2 :: s1 :: d3 :: d4 :: s2 :: y1 :: y2 :: y3 :: y4 :: _ =>
    if d1.isDigit && d2.isDigit && s1 == '/' && d3.isDigit && d4.isDigit && s2 == '/'
        && y1.isDigit && y2.isDigit && y3.isDigit && y4.isDigit then
      some (String.mk [d1, d2, s1, d3, d4, s2, y1, y2, y3, y4])
    else none
  | _ => none

/-- Python `re.search(lab + r"(\d{2}/\d{2}/\d{4})", text)`: scan positions
left to right; at the first position where the label is a prefix and is
followed by a date-shaped substring, return that date. -/
def searchLabeledDate (lab : List Char) : List Char → Option String
  | [] => none
  | c :: cs =>
    if prefixOfB lab (c :: cs) then
      match dateAt (List.drop lab.length (c :: cs)) with
      | some d => some d
      | none => searchLabeledDate lab cs
    else searchLabeledDate lab cs

/-- The string has shape `DD/MM/YYYY` (ASCII digits). -/
def isDateString (s : String) : Bool :=
  match s.toList with
  | [d1, d2, s1, d3, d4, s2, y1, y2, y3, y4] =>
    d1.isDigit && d2.isDigit && s1 == '/' && d3.isDigit && d4.isDigit && s2 == '/'
      && y1.isDigit && y2.isDigit && y3.isDigit && y4.isDigit
  | _ => false

/-- scraper.py lines 182-184: `re.search(r"Last Date: (\d{2}/\d{2}/\d{4})",
listing_info_text)`, group 1 on a match, else the sentinel. -/
def extract_filing_date (listing : String) : String :=
  match searchLabeledDate "Last Date: ".toList listing.toList with
  | some d => d
  | none => "Not found"

/-- scraper.py lines 187-191: `re.search(r"NEXT DATE: (\d{2}/\d{2}/\d{4})", ...)`,
group 1 on a match, else "NA" if the text contains "NEXT DATE: NA", else the
sentinel. -/
def extract_next_hearing_date (listing : String) : String :=
  match searchLabeledDate "NEXT DATE: ".toList listing.toList with
  | some d => d
  | none => if containsStr listing "NEXT DATE: NA" then "NA" else "Not found"

/-! ## HTML page model

BeautifulSoup views used by scraper.py, given as structured data: anchors
carry their optional `href` attribute and their string content; cells carry
their `get_text` result and their descendant anchors in document order;
tables carry their optional `id`, their `th` texts, the `find_all("tr")`
rows and the `select("tbody tr")` rows; a page carries its visible text,
its tables in document order and its raw serialized content. -/

structure Anchor where
  href : Option String
  text : String
deriving DecidableEq

structure Cell where
  text : String
  anchors : List Anchor
deriving DecidableEq

structure Row where
  tds : List Cell
deriving DecidableEq

structure HtmlTable where
  id : Option String
  ths : List String
  trs : List Row
  tbodyRows : List Row
deriving DecidableEq

structure Page where
  visibleText : String
  tables : List HtmlTable
  rawHtml : String
deriving DecidableEq

/-- scraper.py line 15. -/
def BASE_URL : String := "https://delhihighcourt.nic.in"

/-- Python `urllib.parse.urljoin(base, url)` for a base that is a bare
origin (scheme + host, empty path), covering the reference forms that
occur: absolute http(s) URLs, scheme-relative, root-relative, relative. -/
def urljoin (base url : String) : String :=
  if url = "" then base
  else if prefixOfB "http://".toList url.toList || prefixOfB "https://".toList url.toList then url
  else if prefixOfB "//".toList url.toList then "https:" ++ url
  else if prefixOfB "/".toList url.toList then base ++ url
  else base ++ "/" ++ url

/-- One extracted order document: Python dict `{"date": ..., "pdf_url": ...}`. -/
structure OrderLink where
  date : String
  pdf_url : String
deriving DecidableEq

/-- Python `soup.find("table", id="caseTable")`: first table whose id is
"caseTable". -/
def findCaseTable (tables : List HtmlTable) : Option HtmlTable :=
  tables.find? (fun t => t.id == some "caseTable")

/-- Loop body of `parse_order_links` (scraper.py lines 110-118): for each
`tbody tr`, when the row has at least 3 cells and its second cell contains
an anchor with an href, emit `{date := third cell text, pdf_url :=
urljoin(BASE_URL, href)}`. -/
def orderLinkRows : List Row → List OrderLink
  | [] => []
  | tr :: rest =>
    match tr.tds with
    | _ :: td1 :: td2 :: _ =>
      match td1.anchors.find? (fun a => a.href.isSome) with
      | some a =>
        match a.href with
        | some href => { date := td2.text, pdf_url := urljoin BASE_URL href } :: orderLinkRows rest
        | none => orderLinkRows rest
      | none => orderLinkRows rest
    | _ => orderLinkRows rest

/-- scraper.py lines 97-119: parse the orders page; target the table with
id "caseTable"; return `[]` when it is absent. -/
def parse_order_links (order_html : Page) : List OrderLink :=
  match findCaseTable order_html.tables with
  | none => []
  | some table => orderLinkRows table.tbodyRows

/-- One table as returned by `parse_all_tables`. -/
structure JTable where
  headers : List String
  rows : List (List String)
deriving DecidableEq

/-- Body of the `parse_all_tables` loop for one table (scraper.py lines
66-93): skip tables with at most `min_rows` rows; headers come from `th`
elements if any, else from the first row's cells (which is then dropped
from the data rows); rows with no `td` are skipped; tables with no
surviving rows are dropped. -/
def parseOneTable (min_rows : Nat) (t : HtmlTable) : Option JTable :=
  if t.trs.length ≤ min_rows then none
  else
    let hd := if t.ths.isEmpty then
        (((t.trs.head?).map (fun r => r.tds.map (fun c => c.text))).getD [], t.trs.tail)
      else (t.ths, t.trs)
    let rows := hd.2.filterMap (fun tr =>
      if tr.tds.isEmpty then none else some (tr.tds.map (fun c => c.text)))
    if rows.isEmpty then none else some { headers := hd.1, rows := rows }

/-- scraper.py lines 54-95. -/
def parse_all_tables (html : Page) (min_rows : Nat) : List JTable :=
  html.tables.filterMap (parseOneTable min_rows)

/-! ## The scrape pipeline -/

/-- Exceptions that scraper.py's `scrape_case_data` can raise after the
form is filled: a Playwright `wait_for_selector` timeout, or the
`ValueError` raised on the negative-result markers (line 159). -/
inductive PyExn where
  | timeout (selector : String) (ms : Nat)
  | valueError (msg : String)
deriving DecidableEq

/-- Python `str(e)` for the exceptions above (the Playwright message text
is modelled; the `ValueError` message is the exact f-string of line 159). -/
def pyStr : PyExn → String
  | .timeout sel ms => "Timeout " ++ toString ms ++ "ms exceeded waiting for selector " ++ sel
  | .valueError msg => msg

/-- Python `traceback.format_exc()` at the handler of line 258, modelled as
a string derived from the exception. -/
def pyTraceback (e : PyExn) : String :=
  "Traceback (most recent call last): " ++ pyStr e

/-- The browser-delivered environment of one `scrape_case_data` run:
the inner text of the `#captcha-code` element; the results page content
once `wait_for_selector("table#caseTable", timeout=60_000)` returns
(`none` = that wait timed out); and, per order-detail URL, the orders page
content once its own `wait_for_selector("table#caseTable", timeout=10000)`
returns (`none` = that wait timed out). -/
structure Site where
  captchaCodeText : String
  resultsPage : Option Page
  orderPages : String → Option Page

/-- Observable side effects of a run: the value written into
`#captchaInput` (line 144), and the order sub-page URLs opened by
`context.new_page(); goto(...)` (lines 218-219), in order. -/
structure ScrapeTrace where
  captchaFilled : Option String
  orderUrlsOpened : List String
deriving DecidableEq

/-- The user-facing record `parsed_main_display` (scraper.py lines 245-250). -/
structure CaseRecord where
  parties_names : String
  filing_date : String
  next_hearing_date : String
  pdf_links : List OrderLink
deriving DecidableEq

/-- One element of `results_list` (scraper.py lines 229-238). -/
structure RowResult where
  sno : String
  case_number : String
  parties : String
  listing_info : String
  orders_link : Option String
  filing_date : String
  next_hearing_date : String
  pdf_links : List OrderLink
deriving DecidableEq

/-- scraper.py lines 165-191: defaults "Not found"; if the caseTable, its
first `tbody tr` and at least 4 cells are present, parties come from the
third cell and the two dates from the regexes on the fourth cell's text.
Returns (parties_names, filing_date, next_hearing_date). -/
def mainFields (mt : Option HtmlTable) : String × String × String :=
  match mt with
  | none => ("Not found", "Not found", "Not found")
  | some t =>
    match t.tbodyRows.head? with
    | none => ("Not found", "Not found", "Not found")
    | some first_row =>
      match first_row.tds with
      | _ :: _ :: td2 :: td3 :: _ =>
        (td2.text, extract_filing_date td3.text, extract_next_hearing_date td3.text)
      | _ => ("Not found", "Not found", "Not found")

/-- scraper.py line 208: `tds[1].find("a", href=True, string=re.compile("Orders", re.I))`
— first anchor in the second cell that has an href and whose string
contains "Orders" case-insensitively. -/
def findOrdersAnchor (td1 : Cell) : Option Anchor :=
  td1.anchors.find? (fun a => a.href.isSome && containsStr (lowerStr a.text) "orders")

/-- scraper.py lines 198-238, the per-row loop: skip rows with fewer than
4 cells; look for the row's "Orders" anchor; when present, open the
resolved URL and wait for its table — a timeout there is an uncaught
exception that aborts the loop (first component `.error`); otherwise parse
the orders page.  Returns the loop outcome together with the list of order
URLs opened (even by an aborting iteration).  `fd`/`nhd` are the
outer-scope `filing_date`/`next_hearing_date` written into every row. -/
def processRows (site : Site) (fd nhd : String) : List Row → Except PyExn (List RowResult) × List String
  | [] => (.ok [], [])
  | tr :: rest =>
    match tr.tds with
    | td0 :: td1 :: td2 :: td3 :: _ =>
      match findOrdersAnchor td1 with
      | some a =>
        match a.href with
        | some href =>
          let url := urljoin BASE_URL href
          match site.orderPages url with
          | none => (.error (PyExn.timeout "table#caseTable" 10000), [url])
          | some opage =>
            let pdfs := parse_order_links opage
            let r := processRows site fd nhd rest
            (r.1.map (fun lst =>
              { sno := td0.text, case_number := td1.text, parties := td2.text,
                listing_info := td3.text, orders_link := some url,
                filing_date := fd, next_hearing_date := nhd,
                pdf_links := pdfs } :: lst), url :: r.2)
        | none =>
          let r := processRows site fd nhd rest
          (r.1.map (fun lst =>
            { sno := td0.text, case_number := td1.text, parties := td2.text,
              listing_info := td3.text, orders_link := none,
              filing_date := fd, next_hearing_date := nhd,
              pdf_links := [] } :: lst), r.2)
      | none =>
        let r := processRows site fd nhd rest
        (r.1.map (fun lst =>
          { sno := td0.text, case_number := td1.text, parties := td2.text,
            listing_info := td3.text, orders_link := none,
            filing_date := fd, next_hearing_date := nhd,
            pdf_links := [] } :: lst), r.2)
    | _ => processRows site fd nhd rest

/-- The dictionary returned on the success path (scraper.py line 256). -/
structure ScrapeOk where
  result : CaseRecord
  tables : List JTable
  raw_response : String
  all_results : List RowResult
deriving DecidableEq

/-- scraper.py line 249: `results_list[0]["pdf_links"] if results_list and
results_list[0]["pdf_links"] else []`. -/
def firstRowPdfs (results_list : List RowResult) : List OrderLink :=
  match results_list with
  | [] => []
  | first :: _ => if first.pdf_links.isEmpty then [] else first.pdf_links

/-- The page's visible text contains one of the three negative markers
(scraper.py lines 157-158, after `.lower()`). -/
def hasNegativeMarker (pg : Page) : Bool :=
  let page_text := lowerStr pg.visibleText
  containsStr page_text "no data available" || containsStr page_text "no such record"
    || containsStr page_text "case not found"

/-- scraper.py lines 148-256 (after the CAPTCHA fill): submit, wait for the
results table (timeout → error), check the negative markers (match →
`ValueError` carrying the query), extract the first-row fields, walk the
rows (an uncaught secondary timeout → error), and assemble the success
dictionary.  The second component is the list of order sub-page URLs
opened. -/
def scrapeBody (case_type case_number filing_year : String) (site : Site) :
    Except PyExn ScrapeOk × List String :=
  match site.resultsPage with
  | none => (.error (PyExn.timeout "table#caseTable" 60000), [])
  | some pg =>
    if hasNegativeMarker pg then
      (.error (PyExn.valueError
        ("No case found for " ++ case_type ++ " " ++ case_number ++ "/" ++ filing_year)), [])
    else
      match findCaseTable pg.tables with
      | none =>
        (.ok { result := { parties_names := (mainFields none).1,
                           filing_date := (mainFields none).2.1,
                           next_hearing_date := (mainFields none).2.2,
                           pdf_links := firstRowPdfs [] },
               tables := parse_all_tables pg 1, raw_response := pg.rawHtml,
               all_results := [] }, [])
      | some t =>
        let pfn := mainFields (some t)
        let r := processRows site pfn.2.1 pfn.2.2 t.tbodyRows
        match r.1 with
        | .error e => (.error e, r.2)
        | .ok results_list =>
          (.ok { result := { parties_names := pfn.1, filing_date := pfn.2.1,
                             next_hearing_date := pfn.2.2,
                             pdf_links := firstRowPdfs results_list },
                 tables := parse_all_tables pg 1, raw_response := pg.rawHtml,
                 all_results := results_list }, r.2)

/-- scraper.py lines 122-262: the CAPTCHA input is filled with the inner
text of the `#captcha-code` element (lines 142-144) before submission, on
every path; then the body above runs.  The second component is the
side-effect trace of the run. -/
def scrape_case_data (case_type case_number filing_year : String) (site : Site) :
    Except PyExn ScrapeOk × ScrapeTrace :=
  let r := scrapeBody case_type case_number filing_year site
  (r.1, { captchaFilled := some site.captchaCodeText, orderUrlsOpened := r.2 })

/-! ## The __main__ dispatcher (scraper.py lines 264-294)

The printed document is modelled as a JSON value; the dispatcher returns
the top-level object (as a key/value list, in insertion order, as
`json.dumps` serializes it) together with the process exit code.  Note the
code calls `sys.exit(1)` only on usage errors and unknown commands; after
printing the operation's output (success or error dictionary alike) it
falls off the end of the script, i.e. exits 0. -/

inductive JVal where
  | str (s : String)
  | arr (xs : List JVal)
  | obj (fields : List (String × JVal))

/-- Keys of a JSON object, in order. -/
def objKeys : List (String × JVal) → List String :=
  List.map Prod.fst

def orderLinkJson (l : OrderLink) : JVal :=
  .obj [("date", .str l.date), ("pdf_url", .str l.pdf_url)]

/-- `json.dumps` view of `parsed_main_display` (scraper.py lines 245-250):
the dictionary literal has exactly these four keys, in this order. -/
def caseRecordJson (r : CaseRecord) : List (String × JVal) :=
  [("parties_names", .str r.parties_names),
   ("filing_date", .str r.filing_date),
   ("next_hearing_date", .str r.next_hearing_date),
   ("pdf_links", .arr (r.pdf_links.map orderLinkJson))]

/-- `json.dumps` view of one `results_list` element (scraper.py lines 229-238). -/
def rowResultJson (r : RowResult) : JVal :=
  .obj [("sno", .str r.sno),
        ("case_number", .str r.case_number),
        ("parties", .str r.parties),
        ("listing_info", .str r.listing_info),
        ("orders_link", match r.orders_link with | some u => .str u | none => .obj []),
        ("filing_date", .str r.filing_date),
        ("next_hearing_date", .str r.next_hearing_date),
        ("pdf_links", .arr (r.pdf_links.map orderLinkJson))]

def jTableJson (t : JTable) : JVal :=
  .obj [("headers", .arr (t.headers.map JVal.str)),
        ("rows", .arr (t.rows.map (fun r => .arr (r.map JVal.str))))]

/-- The top-level object printed for the `search` command: the return value
of `scrape_case_data` (line 256 on success, line 260 on failure). -/
def searchJson : Except PyExn ScrapeOk → List (String × JVal)
  | .ok o =>
    [("result", .obj (caseRecordJson o.result)),
     ("tables", .arr (o.tables.map jTableJson)),
     ("raw_response", .str o.raw_response),
     ("all_results", .arr (o.all_results.map rowResultJson))]
  | .error e => [("error", .str (pyStr e)), ("traceback", .str (pyTraceback e))]

/-- The top-level object printed for the `get_types` command.
`get_case_types` (scraper.py lines 30-51) is pure browser I/O; its outcome
is an oracle: `.ok` the dropdown values, `.error` the message/traceback
pair of its own handler (line 51). -/
def getTypesJson : Except (String × String) (List String) → List (String × JVal)
  | .ok values => [("result", .arr (values.map JVal.str))]
  | .error e => [("error", .str e.1), ("traceback", .str e.2)]

/-- scraper.py lines 264-294: the `__main__` dispatcher, as a function of
the argument vector (including the script name), the `get_case_types`
outcome and the site environment.  Returns (printed top-level JSON object,
process exit code). -/
def runMain (argv : List String) (gt : Except (String × String) (List String)) (site : Site) :
    List (String × JVal) × Nat :=
  if argv.length < 2 then ([("error", .str "Usage: <command> [args]")], 1)
  else
    let command := argv.getD 1 ""
    if command = "get_types" then
      if argv.length ≠ 2 then ([("error", .str "Usage: get_types")], 1)
      else (getTypesJson gt, 0)
    else if command = "search" then
      if argv.length ≠ 5 then ([("error", .str "Usage: search <CASE_TYPE> <CASE_NO> <YEAR>")], 1)
      else
        let out := scrape_case_data (argv.getD 2 "") (argv.getD 3 "") (argv.getD 4 "") site
        (searchJson out.1, 0)
    else ([("error", .str "Unknown command")], 1)

/-- Modelled from the spec's words for claim C7 (the refinement side): one
`{date, pdf_url}` pair per body row that has at least 3 columns and an
href-bearing anchor in its second column; `pdf_url` is the href resolved
against the site's base origin, `date` is the third column's text; other
rows yield nothing. -/
def specOrderLinkOfRow (r : Row) : Option OrderLink :=
  if 3 ≤ r.tds.length then
    match (r.tds.get? 1).bind (fun c => c.anchors.find? (fun a => a.href.isSome)) with
    | some a => a.href.map (fun href =>
        { date := ((r.tds.get? 2).map Cell.text).getD "", pdf_url := urljoin BASE_URL href })
    | none => none
  else none

/-! ## Concrete fixtures -/

/-- Orders page fixture: row 1 has no anchor (skipped), row 2 has a PDF
anchor in column 2 and the date "24/01/2024" in column 3. -/
def orderRow1 : Row :=
  { tds := [{ text := "1", anchors := [] },
            { text := "W.P.(C) 1234/2024", anchors := [] },
            { text := "20/12/2023", anchors := [] }] }

def orderRow2 : Row :=
  { tds := [{ text := "2", anchors := [] },
            { text := "W.P.(C) 1234/2024",
              anchors := [{ href := some "/app/showlogo/123.pdf", text := "Order PDF" }] },
            { text := "24/01/2024", anchors := [] }] }

def orderPageFx : Page :=
  { visibleText := "Orders list",
    tables := [{ id := some "caseTable", ths := ["S.No", "Case", "Date"],
                 trs := [orderRow1, orderRow2], tbodyRows := [orderRow1, orderRow2] }],
    rawHtml := "<html>orders</html>" }

/-- Results page fixture: two data rows with different listing-info texts,
each with its own "Orders" anchor. -/
def resultsRow1 : Row :=
  { tds := [{ text := "1", anchors := [] },
            { text := "W.P.(C) 1234/2024 Orders",
              anchors := [{ href := some "/app/case-orders/1", text := "Orders" }] },
            { text := "ALPHA vs BETA", anchors := [] },
            { text := "Last Date: 10/03/2023 NEXT DATE: 15/05/2023", anchors := [] }] }

def resultsRow2 : Row :=
  { tds := [{ text := "2", anchors := [] },
            { text := "W.P.(C) 5678/2024 Orders",
              anchors := [{ href := some "/app/case-orders/2", text := "Orders" }] },
            { text := "GAMMA vs DELTA", anchors := [] },
            { text := "Last Date: 01/01/2022 NEXT DATE: NA", anchors := [] }] }

def resultsPageFx : Page :=
  { visibleText := "Search results listing",
    tables := [{ id := some "caseTable", ths := ["S.No", "Case", "Parties", "Listing"],
                 trs := [resultsRow1, resultsRow2], tbodyRows := [resultsRow1, resultsRow2] }],
    rawHtml := "<html>results</html>" }

/-- A results page with no table at all (and no negative markers). -/
def plainPage : Page :=
  { visibleText := "Search results", tables := [], rawHtml := "<html>plain</html>" }

/-- A results page with one table whose id is not "caseTable". -/
def noCaseTablePage : Page :=
  { visibleText := "Something else",
    tables := [{ id := some "otherTable", ths := [],
                 trs := [orderRow2], tbodyRows := [orderRow2] }],
    rawHtml := "<html>other</html>" }

/-- A results page carrying the site's negative marker. -/
def notFoundPage : Page :=
  { visibleText := "No data available in table", tables := [], rawHtml := "<html>empty</html>" }

/-- Environment where every order sub-page loads. -/
def siteOk : Site :=
  { captchaCodeText := "X7K2",
    resultsPage := some resultsPageFx,
    orderPages := fun u =>
      if u = "https://delhihighcourt.nic.in/app/case-orders/1"
          || u = "https://delhihighcourt.nic.in/app/case-orders/2" then some orderPageFx
      else none }

/-- Environment where every order sub-page wait times out. -/
def siteRowTimeout : Site :=
  { captchaCodeText := "X7K2",
    resultsPage := some resultsPageFx,
    orderPages := fun _ => none }

/-- Environment whose results page has no table. -/
def sitePlain : Site :=
  { captchaCodeText := "X7K2", resultsPage := some plainPage, orderPages := fun _ => none }

/-- Environment whose results page shows the negative marker. -/
def siteNotFound : Site :=
  { captchaCodeText := "Q9", resultsPage := some notFoundPage, orderPages := fun _ => none }

/-- Environment where the primary results-table wait times out. -/
def siteDown : Site :=
  { captchaCodeText := "Z1", resultsPage := none, orderPages := fun _ => none }

/-- The run of `scrape_case_data` on `siteOk` succeeds; this is its payload
(the fallback branch is never taken). -/
def fxOk : ScrapeOk :=
  match (scrape_case_data "W.P.(C)" "1234" "2024" siteOk).1 with
  | .ok o => o
  | .error _ =>
    { result := { parties_names := "", filing_date := "", next_hearing_date := "", pdf_links := [] },
      tables := [], raw_response := "", all_results := [] }

/-- `Except.ok`-ness as a Bool (for closed statements about run outcomes). -/
def scrapeSucceeded (e : Except PyExn ScrapeOk) : Bool :=
  match e with
  | .ok _ => true
  | .error _ => false

/-- The order-detail URL of a results-table row: defined when the row has
at least 4 cells and its second cell has an "Orders" anchor carrying an
href; it is that href resolved against the base (scraper.py lines 208-215). -/
def rowOrderUrl (row : Row) : Option String :=
  match row.tds with
  | _ :: td1 :: _ :: _ :: _ =>
    match findOrdersAnchor td1 with
    | some a => a.href.map (urljoin BASE_URL)
    | none => none
  | _ => none

/-! ## Supporting lemmas -/

theorem findCaseTable_eq_none (tables : List HtmlTable)
    (h : ∀ t ∈ tables, t.id ≠ some "caseTable") : findCaseTable tables = none := by
  unfold findCaseTable
  rw [List.find?_eq_none]
  intro t ht
  simpa using h t ht

/-! ## Claims C9, C8, C2, C4, C1 (counterexample side) -/

/-- C9: for every input page that contains no table with id "caseTable"
(including pages with no tables at all), `parse_order_links` returns the
empty list.  The embedded function is total, which reflects that the code
path (`if not table: return links`) raises nothing. -/
theorem parse_order_links_no_table (p : Page)
    (h : ∀ t ∈ p.tables, t.id ≠ some "caseTable") : parse_order_links p = [] := by
  unfold parse_order_links
  rw [findCaseTable_eq_none p.tables h]

theorem parse_order_links_no_table_witness :
    (∀ t ∈ noCaseTablePage.tables, t.id ≠ some "caseTable")
      ∧ parse_order_links noCaseTablePage = [] :=
  ⟨by decide, parse_order_links_no_table noCaseTablePage (by decide)⟩

/-- C8: field extraction is a pure, deterministic function of the page:
two runs of the main-table field extraction and of the order-link parsing
on equal inputs give equal outputs (the embedding threads no state). -/
theorem extraction_deterministic (p q : Page) (h : p = q) :
    mainFields (findCaseTable p.tables) = mainFields (findCaseTable q.tables)
      ∧ parse_order_links p = parse_order_links q := by
  subst h
  exact ⟨rfl, rfl⟩

theorem extraction_deterministic_witness :
    orderPageFx = orderPageFx
      ∧ (mainFields (findCaseTable orderPageFx.tables) = mainFields (findCaseTable orderPageFx.tables)
         ∧ parse_order_links orderPageFx = parse_order_links orderPageFx) :=
  ⟨rfl, extraction_deterministic orderPageFx orderPageFx rfl⟩

/-- C2 counterexample: with no human in the model at all, a run completes
and submits — the CAPTCHA input is filled with exactly the page's displayed
`#captcha-code` text, computed by the program (scraper.py lines 143-144),
and the pipeline proceeds to a result without suspending. -/
theorem captcha_no_human_input :
    scrapeSucceeded (scrape_case_data "W.P.(C)" "1234" "2024" sitePlain).1 = true
      ∧ (scrape_case_data "W.P.(C)" "1234" "2024" sitePlain).2.captchaFilled
          = some sitePlain.captchaCodeText :=
  ⟨rfl, rfl⟩

/-- C2 amended: the program solves the CAPTCHA itself — in every run the
value written into `#captchaInput` is the inner text of the `#captcha-code`
element of the page, and submission follows immediately with no human
input step and no suspension. -/
theorem captcha_filled_from_page (ct num yr : String) (site : Site) :
    (scrape_case_data ct num yr site).2.captchaFilled = some site.captchaCodeText :=
  rfl

/-- C4: whenever the results page's visible text contains one of the three
negative markers (case-insensitively), the run fails with the `ValueError`
whose message carries the original query, and no order sub-page is opened. -/
theorem scrape_not_found (ct num yr : String) (site : Site) (pg : Page)
    (hpg : site.resultsPage = some pg) (hm : hasNegativeMarker pg = true) :
    (scrape_case_data ct num yr site).1
        = .error (PyExn.valueError ("No case found for " ++ ct ++ " " ++ num ++ "/" ++ yr))
      ∧ (scrape_case_data ct num yr site).2.orderUrlsOpened = [] := by
  constructor <;> simp [scrape_case_data, scrapeBody, hpg, hm]

theorem scrape_not_found_witness :
    siteNotFound.resultsPage = some notFoundPage
      ∧ hasNegativeMarker notFoundPage = true
      ∧ ((scrape_case_data "W.P.(C)" "1234" "2024" siteNotFound).1
           = .error (PyExn.valueError ("No case found for " ++ "W.P.(C)" ++ " " ++ "1234" ++ "/" ++ "2024"))
         ∧ (scrape_case_data "W.P.(C)" "1234" "2024" siteNotFound).2.orderUrlsOpened = []) :=
  ⟨rfl, by decide,
   scrape_not_found "W.P.(C)" "1234" "2024" siteNotFound notFoundPage rfl (by decide)⟩

/-- C1 counterexample: on a results page with two rows, each carrying an
Orders link, a timeout of the first row's order-page wait aborts the whole
query — the run returns the error document instead of a record with an
empty `pdf_links` for that row, and the second row is never visited (only
the first order URL was ever opened). -/
theorem secondary_timeout_aborts_query :
    (scrape_case_data "W.P.(C)" "1234" "2024" siteRowTimeout).1
        = .error (PyExn.timeout "table#caseTable" 10000)
      ∧ (scrape_case_data "W.P.(C)" "1234" "2024" siteRowTimeout).2.orderUrlsOpened
        = ["https://delhihighcourt.nic.in/app/case-orders/1"] :=
  ⟨rfl, rfl⟩

/-! ## Claim C3 (corrected): CLI output shape and exit codes -/

/-- C3 counterexample: a `search` invocation whose underlying operation
fails (primary table wait times out) prints the single
`{"error", "traceback"}` document — but the dispatcher never reaches a
`sys.exit` after printing it, so the process exits 0, not non-zero. -/
theorem failed_search_exits_zero :
    scrapeSucceeded (scrape_case_data "W.P.(C)" "1234" "2024" siteDown).1 = false
      ∧ objKeys (runMain ["scraper.py", "search", "W.P.(C)", "1234", "2024"] (.ok []) siteDown).1
          = ["error", "traceback"]
      ∧ (runMain ["scraper.py", "search", "W.P.(C)", "1234", "2024"] (.ok []) siteDown).2 = 0 :=
  ⟨rfl, rfl, rfl⟩

/-- C3 amended: both commands emit a single JSON document on stdout —
`{"error", "traceback"}` when the underlying operation fails and the
result document when it succeeds — but the process exits 0 in both cases;
a non-zero exit occurs only for usage errors and unknown commands, whose
document has just the "error" key. -/
theorem cli_output_contract (h ct num yr : String)
    (gt : Except (String × String) (List String)) (site : Site) :
    (∀ e, (scrape_case_data ct num yr site).1 = .error e →
        objKeys (runMain [h, "search", ct, num, yr] gt site).1 = ["error", "traceback"]
          ∧ (runMain [h, "search", ct, num, yr] gt site).2 = 0)
      ∧ (∀ o, (scrape_case_data ct num yr site).1 = .ok o →
        objKeys (runMain [h, "search", ct, num, yr] gt site).1
            = ["result", "tables", "raw_response", "all_results"]
          ∧ (runMain [h, "search", ct, num, yr] gt site).2 = 0)
      ∧ (∀ e tb, gt = .error (e, tb) →
        objKeys (runMain [h, "get_types"] gt site).1 = ["error", "traceback"]
          ∧ (runMain [h, "get_types"] gt site).2 = 0)
      ∧ (∀ vs, gt = .ok vs →
        objKeys (runMain [h, "get_types"] gt site).1 = ["result"]
          ∧ (runMain [h, "get_types"] gt site).2 = 0)
      ∧ runMain [h] gt site = ([("error", .str "Usage: <command> [args]")], 1)
      ∧ (∀ cmd, cmd ≠ "get_types" → cmd ≠ "search" →
          runMain [h, cmd] gt site = ([("error", .str "Unknown command")], 1)) := by
  have hsearch : runMain [h, "search", ct, num, yr] gt site
      = (searchJson (scrape_case_data ct num yr site).1, 0) := by
    simp [runMain, scrape_case_data, List.getD]
  have hget : runMain [h, "get_types"] gt site = (getTypesJson gt, 0) := by
    simp [runMain]
  refine ⟨?_, ?_, ?_, ?_, ?_, ?_⟩
  · intro e he
    rw [hsearch, he]
    exact ⟨rfl, rfl⟩
  · intro o ho
    rw [hsearch, ho]
    exact ⟨rfl, rfl⟩
  · intro e tb hgt
    rw [hget, hgt]
    exact ⟨rfl, rfl⟩
  · intro vs hgt
    rw [hget, hgt]
    exact ⟨rfl, rfl⟩
  · simp [runMain]
  · intro cmd h1 h2
    simp [runMain, h1, h2]

theorem cli_output_contract_witness :
    ((scrape_case_data "W.P.(C)" "1234" "2024" siteDown).1
        = .error (PyExn.timeout "table#caseTable" 60000))
      ∧ (objKeys (runMain ["scraper.py", "search", "W.P.(C)", "1234", "2024"]
            (.error ("boom", "tb")) siteDown).1 = ["error", "traceback"]
         ∧ (runMain ["scraper.py", "search", "W.P.(C)", "1234", "2024"]
            (.error ("boom", "tb")) siteDown).2 = 0) :=
  ⟨rfl,
   (cli_output_contract "scraper.py" "W.P.(C)" "1234" "2024" (.error ("boom", "tb")) siteDown).1
     (PyExn.timeout "table#caseTable" 60000) rfl⟩

/-- Loop invariant of the per-row walk: when the loop completes without an
exception, every produced row carries the outer-scope dates and rows with
no Orders link carry an empty PDF list; moreover every input row that has
an order URL had its order page load (otherwise the loop would have
aborted). -/
theorem processRows_ok (site : Site) (fd nhd : String) :
    ∀ (rows : List Row) (res : List RowResult) (opened : List String),
      processRows site fd nhd rows = (.ok res, opened) →
      (∀ r ∈ res, r.filing_date = fd ∧ r.next_hearing_date = nhd
            ∧ (r.orders_link = none → r.pdf_links = []))
        ∧ (∀ row ∈ rows, ∀ u, rowOrderUrl row = some u → (site.orderPages u).isSome = true) := by
  intro rows
  induction rows with
  | nil =>
    intro res opened hp
    simp only [processRows, Prod.mk.injEq, Except.ok.injEq] at hp
    obtain ⟨rfl, rfl⟩ := hp
    exact ⟨by simp, by simp⟩
  | cons tr rest ih =>
    intro res opened hp
    rcases htds : tr.tds with _ | ⟨td0, _ | ⟨td1, _ | ⟨td2, _ | ⟨td3, tds'⟩⟩⟩⟩
    · simp only [processRows, htds] at hp
      refine ⟨(ih res opened hp).1, ?_⟩
      intro row hrow u hu
      rcases List.mem_cons.mp hrow with rfl | hmem
      · simp [rowOrderUrl, htds] at hu
      · exact (ih res opened hp).2 row hmem u hu
    · simp only [processRows, htds] at hp
      refine ⟨(ih res opened hp).1, ?_⟩
      intro row hrow u hu
      rcases List.mem_cons.mp hrow with rfl | hmem
      · simp [rowOrderUrl, htds] at hu
      · exact (ih res opened hp).2 row hmem u hu
    · simp only [processRows, htds] at hp
      refine ⟨(ih res opened hp).1, ?_⟩
      intro row hrow u hu
      rcases List.mem_cons.mp hrow with rfl | hmem
      · simp [rowOrderUrl, htds] at hu
      · exact (ih res opened hp).2 row hmem u hu
    · simp only [processRows, htds] at hp
      refine ⟨(ih res opened hp).1, ?_⟩
      intro row hrow u hu
      rcases List.mem_cons.mp hrow with rfl | hmem
      · simp [rowOrderUrl, htds] at hu
      · exact (ih res opened hp).2 row hmem u hu
    · rcases hanc : findOrdersAnchor td1 with _ | a
      · simp only [processRows, htds, hanc] at hp
        rcases hrest : processRows site fd nhd rest with ⟨res1, opened1⟩
        rw [hrest] at hp
        cases res1 with
        | error e => simp [Except.map] at hp
        | ok lst =>
          simp only [Except.map, Prod.mk.injEq, Except.ok.injEq] at hp
          obtain ⟨rfl, rfl⟩ := hp
          constructor
          · intro r hr
            rcases List.mem_cons.mp hr with rfl | hmem
            · exact ⟨rfl, rfl, fun _ => rfl⟩
            · exact (ih lst opened1 hrest).1 r hmem
          · intro row hrow u hu
            rcases List.mem_cons.mp hrow with rfl | hmem
            · simp [rowOrderUrl, htds, hanc] at hu
            · exact (ih lst opened1 hrest).2 row hmem u hu
      · rcases hhr : a.href with _ | href
        · simp only [processRows, htds, hanc, hhr] at hp
          rcases hrest : processRows site fd nhd rest with ⟨res1, opened1⟩
          rw [hrest] at hp
          cases res1 with
          | error e => simp [Except.map] at hp
          | ok lst =>
            simp only [Except.map, Prod.mk.injEq, Except.ok.injEq] at hp
            obtain ⟨rfl, rfl⟩ := hp
            constructor
            · intro r hr
              rcases List.mem_cons.mp hr with rfl | hmem
              · exact ⟨rfl, rfl, fun _ => rfl⟩
              · exact (ih lst opened1 hrest).1 r hmem
            · intro row hrow u hu
              rcases List.mem_cons.mp hrow with rfl | hmem
              · simp [rowOrderUrl, htds, hanc, hhr] at hu
              · exact (ih lst opened1 hrest).2 row hmem u hu
        · rcases hop : site.orderPages (urljoin BASE_URL href) with _ | opage
          · simp only [processRows, htds, hanc, hhr, hop] at hp
            simp at hp
          · simp only [processRows, htds, hanc, hhr, hop] at hp
            rcases hrest : processRows site fd nhd rest with ⟨res1, opened1⟩
            rw [hrest] at hp
            cases res1 with
            | error e => simp [Except.map] at hp
            | ok lst =>
              simp only [Except.map, Prod.mk.injEq, Except.ok.injEq] at hp
              obtain ⟨rfl, rfl⟩ := hp
              constructor
              · intro r hr
                rcases List.mem_cons.mp hr with rfl | hmem
                · exact ⟨rfl, rfl, fun h => by simp at h⟩
                · exact (ih lst opened1 hrest).1 r hmem
              · intro row hrow u hu
                rcases List.mem_cons.mp hrow with rfl | hmem
                · simp only [rowOrderUrl, htds, hanc, hhr, Option.map_some] at hu
                  obtain rfl := Option.some.inj hu
                  rw [hop]
                  rfl
                · exact (ih lst opened1 hrest).2 row hmem u hu

/-- Inversion of a successful run: the marker check passed, the record
fields are the first-row extraction, `pdf_links` is the first produced
row's list, and `all_results` comes from a completed row walk. -/
theorem scrape_ok_inversion (ct num yr : String) (site : Site) (pg : Page)
    (hpg : site.resultsPage = some pg) (o : ScrapeOk)
    (hok : (scrape_case_data ct num yr site).1 = .ok o) :
    hasNegativeMarker pg = false
      ∧ o.result.parties_names = (mainFields (findCaseTable pg.tables)).1
      ∧ o.result.filing_date = (mainFields (findCaseTable pg.tables)).2.1
      ∧ o.result.next_hearing_date = (mainFields (findCaseTable pg.tables)).2.2
      ∧ o.result.pdf_links = firstRowPdfs o.all_results
      ∧ ((findCaseTable pg.tables = none ∧ o.all_results = [])
          ∨ ∃ t, findCaseTable pg.tables = some t
              ∧ (processRows site (mainFields (some t)).2.1 (mainFields (some t)).2.2
                   t.tbodyRows).1 = .ok o.all_results) := by
  have hok' : (scrapeBody ct num yr site).1 = .ok o := hok
  by_cases hm : hasNegativeMarker pg = true
  · simp [scrapeBody, hpg, hm] at hok'
  · rcases hft : findCaseTable pg.tables with _ | t
    · rw [Bool.not_eq_true] at hm
      simp only [scrapeBody, hpg, hft, hm, Bool.false_eq_true, if_false, Except.ok.injEq] at hok'
      subst hok'
      refine ⟨hm, rfl, rfl, rfl, rfl, Or.inl ⟨rfl, rfl⟩⟩
    · rw [Bool.not_eq_true] at hm
      simp only [scrapeBody, hpg, hft, hm, Bool.false_eq_true, if_false] at hok'
      rcases hpr : (processRows site (mainFields (some t)).2.1 (mainFields (some t)).2.2
          t.tbodyRows).1 with e | lst
      · rw [hpr] at hok'
        simp at hok'
      · rw [hpr] at hok'
        simp only [Except.ok.injEq] at hok'
        subst hok'
        exact ⟨hm, rfl, rfl, rfl, rfl, Or.inr ⟨t, rfl, by rw [hpr]⟩⟩

/-- C1 amended: a secondary (per-row) order-table timeout is NOT absorbed —
the `wait_for_selector` call inside the row loop has no try/except, so the
exception propagates and the whole query returns the error document,
exactly as for a primary timeout (concrete run: see the counterexample).
Contrapositively, a run returns a result only if every row with an Orders
link had its order page load; rows without an Orders link do get an empty
`pdf_links` list. -/
theorem success_requires_all_order_fetches (ct num yr : String) (site : Site) (pg : Page)
    (hpg : site.resultsPage = some pg) (o : ScrapeOk)
    (hok : (scrape_case_data ct num yr site).1 = .ok o) :
    (∀ t, findCaseTable pg.tables = some t →
        ∀ row ∈ t.tbodyRows, ∀ u, rowOrderUrl row = some u → (site.orderPages u).isSome = true)
      ∧ (∀ r ∈ o.all_results, r.orders_link = none → r.pdf_links = []) := by
  obtain ⟨-, -, -, -, -, hcase⟩ := scrape_ok_inversion ct num yr site pg hpg o hok
  rcases hcase with ⟨hft, hnil⟩ | ⟨t, hft, hpr⟩
  · constructor
    · intro t ht
      rw [hft] at ht
      cases ht
    · intro r hr
      rw [hnil] at hr
      simp at hr
  · have hpair : processRows site (mainFields (some t)).2.1 (mainFields (some t)).2.2 t.tbodyRows
        = (.ok o.all_results,
           (processRows site (mainFields (some t)).2.1 (mainFields (some t)).2.2 t.tbodyRows).2) := by
      rw [← hpr]
    have hmain := processRows_ok site (mainFields (some t)).2.1 (mainFields (some t)).2.2
        t.tbodyRows o.all_results _ hpair
    constructor
    · intro t' ht'
      rw [hft] at ht'
      obtain rfl := Option.some.inj ht'
      exact hmain.2
    · intro r hr hnone
      exact ((hmain.1 r hr).2.2) hnone

theorem success_requires_all_order_fetches_witness :
    siteOk.resultsPage = some resultsPageFx
      ∧ (scrape_case_data "W.P.(C)" "1234" "2024" siteOk).1 = .ok fxOk
      ∧ ((∀ t, findCaseTable resultsPageFx.tables = some t →
            ∀ row ∈ t.tbodyRows, ∀ u, rowOrderUrl row = some u
              → (siteOk.orderPages u).isSome = true)
         ∧ (∀ r ∈ fxOk.all_results, r.orders_link = none → r.pdf_links = [])) :=
  ⟨rfl, rfl,
   success_requires_all_order_fetches "W.P.(C)" "1234" "2024" siteOk resultsPageFx rfl fxOk rfl⟩

/-- C10: every element of `all_results` carries the filing/next-hearing
dates extracted from the FIRST data row of the results table (scraper.py
lines 235-236 write the outer-scope variables into every row), never
row-specific dates, even when rows have different listing-info texts. -/
theorem all_results_share_first_row_dates (ct num yr : String) (site : Site) (pg : Page)
    (hpg : site.resultsPage = some pg) (o : ScrapeOk)
    (hok : (scrape_case_data ct num yr site).1 = .ok o) :
    ∀ r ∈ o.all_results,
      r.filing_date = (mainFields (findCaseTable pg.tables)).2.1
        ∧ r.next_hearing_date = (mainFields (findCaseTable pg.tables)).2.2 := by
  obtain ⟨-, -, -, -, -, hcase⟩ := scrape_ok_inversion ct num yr site pg hpg o hok
  rcases hcase with ⟨hft, hnil⟩ | ⟨t, hft, hpr⟩
  · intro r hr
    rw [hnil] at hr
    simp at hr
  · have hpair : processRows site (mainFields (some t)).2.1 (mainFields (some t)).2.2 t.tbodyRows
        = (.ok o.all_results,
           (processRows site (mainFields (some t)).2.1 (mainFields (some t)).2.2 t.tbodyRows).2) := by
      rw [← hpr]
    have hmain := processRows_ok site (mainFields (some t)).2.1 (mainFields (some t)).2.2
        t.tbodyRows o.all_results _ hpair
    intro r hr
    rw [hft]
    exact ⟨(hmain.1 r hr).1, (hmain.1 r hr).2.1⟩

theorem all_results_share_first_row_dates_witness :
    siteOk.resultsPage = some resultsPageFx
      ∧ (scrape_case_data "W.P.(C)" "1234" "2024" siteOk).1 = .ok fxOk
      ∧ ∀ r ∈ fxOk.all_results,
          r.filing_date = (mainFields (findCaseTable resultsPageFx.tables)).2.1
            ∧ r.next_hearing_date = (mainFields (findCaseTable resultsPageFx.tables)).2.2 :=
  ⟨rfl, rfl,
   all_results_share_first_row_dates "W.P.(C)" "1234" "2024" siteOk resultsPageFx rfl fxOk rfl⟩

/-- C6: for a results page lacking the three negative markers, a produced
record always has exactly the four keys of the dictionary literal of
scraper.py lines 245-250 (in that order), its scalar fields come from the
first-row extraction whose fallbacks are the sentinels, and when the page
has no caseTable at all the whole record is the sentinel record with an
empty pdf list — fields degrade to sentinels, never to missing keys. -/
theorem case_record_fixed_shape (ct num yr : String) (site : Site) (pg : Page)
    (hpg : site.resultsPage = some pg) (hm : hasNegativeMarker pg = false) :
    (∀ o, (scrape_case_data ct num yr site).1 = .ok o →
        objKeys (caseRecordJson o.result)
            = ["parties_names", "filing_date", "next_hearing_date", "pdf_links"]
          ∧ o.result.parties_names = (mainFields (findCaseTable pg.tables)).1
          ∧ o.result.filing_date = (mainFields (findCaseTable pg.tables)).2.1
          ∧ o.result.next_hearing_date = (mainFields (findCaseTable pg.tables)).2.2
          ∧ o.result.pdf_links = firstRowPdfs o.all_results)
      ∧ (findCaseTable pg.tables = none →
          (scrape_case_data ct num yr site).1
            = .ok { result := { parties_names := "Not found", filing_date := "Not found",
                                next_hearing_date := "Not found", pdf_links := [] },
                    tables := parse_all_tables pg 1, raw_response := pg.rawHtml,
                    all_results := [] }) := by
  constructor
  · intro o hok
    obtain ⟨-, h1, h2, h3, h4, -⟩ := scrape_ok_inversion ct num yr site pg hpg o hok
    exact ⟨rfl, h1, h2, h3, h4⟩
  · intro hft
    show (scrapeBody ct num yr site).1 = _
    simp [scrapeBody, hpg, hm, hft, mainFields, firstRowPdfs]

theorem case_record_fixed_shape_witness :
    sitePlain.resultsPage = some plainPage
      ∧ hasNegativeMarker plainPage = false
      ∧ (scrape_case_data "W.P.(C)" "1234" "2024" sitePlain).1
          = .ok { result := { parties_names := "Not found", filing_date := "Not found",
                              next_hearing_date := "Not found", pdf_links := [] },
                  tables := parse_all_tables plainPage 1, raw_response := plainPage.rawHtml,
                  all_results := [] } :=
  ⟨rfl, by decide,
   (case_record_fixed_shape "W.P.(C)" "1234" "2024" sitePlain plainPage rfl (by decide)).2 rfl⟩

/-! ## Claim C5: the listing-info regex extractions -/

theorem toList_mk (l : List Char) : (String.mk l).toList = l := rfl

theorem prefixOfB_append (xs ys l : List Char) :
    prefixOfB (xs ++ ys) l = (prefixOfB xs l && prefixOfB ys (List.drop xs.length l)) := by
  induction xs generalizing l with
  | nil => simp [prefixOfB]
  | cons x xs ih =>
    cases l with
    | nil => simp [prefixOfB]
    | cons c cs => simp [prefixOfB, ih, Bool.and_assoc]

theorem prefixOfB_iff_append (xs l : List Char) :
    prefixOfB xs l = true ↔ ∃ t, l = xs ++ t := by
  induction xs generalizing l with
  | nil => simp [prefixOfB]
  | cons x xs ih =>
    cases l with
    | nil => simp [prefixOfB]
    | cons c cs =>
      simp only [prefixOfB, Bool.and_eq_true, beq_iff_eq, ih, List.cons_append, List.cons_eq_cons]
      constructor
      · rintro ⟨rfl, t, rfl⟩
        exact ⟨t, rfl, rfl⟩
      · rintro ⟨t, rfl, rfl⟩
        exact ⟨rfl, t, rfl⟩

theorem dateAt_sound (cs : List Char) (d : String) (h : dateAt cs = some d) :
    isDateString d = true ∧ prefixOfB d.toList cs = true := by
  unfold dateAt at h
  split at h
  · rename_i d1 d2 s1 d3 d4 s2 y1 y2 y3 y4 rest
    split at h
    · rename_i hcond
      obtain rfl := Option.some.inj h
      constructor
      · simpa [isDateString, toList_mk] using hcond
      · simp [toList_mk, prefixOfB]
    · cases h
  · cases h

theorem isDateString_length (d : String) (hd : isDateString d = true) :
    d.toList.length = 10 := by
  unfold isDateString at hd
  split at hd
  · rename_i d1 d2 s1 d3 d4 s2 y1 y2 y3 y4 heq
    rw [heq]
    rfl
  · cases hd

theorem dateAt_of_prefix (cs : List Char) (d : String)
    (hd : isDateString d = true) (hp : prefixOfB d.toList cs = true) :
    dateAt cs = some d := by
  unfold isDateString at hd
  split at hd
  · rename_i d1 d2 s1 d3 d4 s2 y1 y2 y3 y4 heq
    rw [heq] at hp
    obtain ⟨t, rfl⟩ := (prefixOfB_iff_append _ _).mp hp
    have hmk : String.mk [d1, d2, s1, d3, d4, s2, y1, y2, y3, y4] = d := by
      rw [← heq]
      rfl
    simpa [dateAt, hd] using hmk
  · cases hd

theorem searchLabeledDate_sound (lab : List Char) :
    ∀ cs d, searchLabeledDate lab cs = some d →
      isDateString d = true ∧ containsSub (lab ++ d.toList) cs = true := by
  intro cs
  induction cs with
  | nil =>
    intro d h
    cases h
  | cons c cs ih =>
    intro d h
    rw [searchLabeledDate] at h
    split at h
    · rename_i hpre
      split at h
      · rename_i d' hda
        obtain ⟨hshape, hp⟩ := dateAt_sound _ _ hda
        obtain rfl := Option.some.inj h
        refine ⟨hshape, ?_⟩
        simp only [containsSub, Bool.or_eq_true]
        refine Or.inl ?_
        rw [prefixOfB_append]
        exact Bool.and_eq_true_iff.mpr ⟨hpre, hp⟩
      · obtain ⟨hshape, hcont⟩ := ih d h
        refine ⟨hshape, ?_⟩
        simp only [containsSub, Bool.or_eq_true]
        exact Or.inr hcont
    · obtain ⟨hshape, hcont⟩ := ih d h
      refine ⟨hshape, ?_⟩
      simp only [containsSub, Bool.or_eq_true]
      exact Or.inr hcont

theorem searchLabeledDate_isSome (lab : List Char) :
    ∀ cs d, isDateString d = true → containsSub (lab ++ d.toList) cs = true →
      (searchLabeledDate lab cs).isSome = true := by
  intro cs
  induction cs with
  | nil =>
    intro d hd hc
    have h10 := isDateString_length d hd
    have hce : containsSub (lab ++ d.toList) [] = (lab ++ d.toList).isEmpty := rfl
    rw [hce] at hc
    rcases hke : lab ++ d.toList with _ | ⟨x, rest⟩
    · have h0 : d.toList = [] := (List.append_eq_nil.mp hke).2
      rw [h0] at h10
      cases h10
    · rw [hke] at hc
      simp at hc
  | cons c cs ih =>
    intro d hd hc
    simp only [containsSub, Bool.or_eq_true] at hc
    rcases hc with hpre | hcont
    · rw [prefixOfB_append] at hpre
      obtain ⟨h1, h2⟩ := Bool.and_eq_true_iff.mp hpre
      rw [searchLabeledDate, if_pos h1, dateAt_of_prefix _ _ hd h2]
      rfl
    · rw [searchLabeledDate]
      split
      · split
        · rfl
        · exact ih d hd hcont
      · exact ih d hd hcont

/-- C5: for every listing-info text, if it contains an occurrence of
"Last Date: DD/MM/YYYY" then `filing_date` is such a date (the one at the
leftmost occurrence), else it is "Not found"; if it contains
"NEXT DATE: DD/MM/YYYY" then `next_hearing_date` is such a date, else "NA"
exactly when the text contains "NEXT DATE: NA", else "Not found"; and on
the spec's example texts the extractions give "10/03/2023", "15/05/2023"
and "NA". -/
theorem listing_info_extraction :
    (∀ t : String,
      ((∃ d, isDateString d = true
            ∧ containsSub ("Last Date: ".toList ++ d.toList) t.toList = true) →
          ∃ d, isDateString d = true
            ∧ containsSub ("Last Date: ".toList ++ d.toList) t.toList = true
            ∧ extract_filing_date t = d)
        ∧ ((¬ ∃ d, isDateString d = true
            ∧ containsSub ("Last Date: ".toList ++ d.toList) t.toList = true) →
          extract_filing_date t = "Not found")
        ∧ ((∃ d, isDateString d = true
            ∧ containsSub ("NEXT DATE: ".toList ++ d.toList) t.toList = true) →
          ∃ d, isDateString d = true
            ∧ containsSub ("NEXT DATE: ".toList ++ d.toList) t.toList = true
            ∧ extract_next_hearing_date t = d)
        ∧ ((¬ ∃ d, isDateString d = true
            ∧ containsSub ("NEXT DATE: ".toList ++ d.toList) t.toList = true) →
          containsStr t "NEXT DATE: NA" = true → extract_next_hearing_date t = "NA")
        ∧ ((¬ ∃ d, isDateString d = true
            ∧ containsSub ("NEXT DATE: ".toList ++ d.toList) t.toList = true) →
          containsStr t "NEXT DATE: NA" = false → extract_next_hearing_date t = "Not found"))
      ∧ extract_filing_date "Last Date: 10/03/2023 some text NEXT DATE: 15/05/2023"
          = "10/03/2023"
      ∧ extract_next_hearing_date "Last Date: 10/03/2023 some text NEXT DATE: 15/05/2023"
          = "15/05/2023"
      ∧ extract_next_hearing_date "Last Date: 10/03/2023 some text NEXT DATE: NA" = "NA" := by
  refine ⟨?_, by decide, by decide, by decide⟩
  intro t
  refine ⟨?_, ?_, ?_, ?_, ?_⟩
  · rintro ⟨d, hd, hc⟩
    rcases hs : searchLabeledDate "Last Date: ".toList t.toList with _ | d'
    · have hsome := searchLabeledDate_isSome "Last Date: ".toList t.toList d hd hc
      rw [hs] at hsome
      cases hsome
    · obtain ⟨hshape, hcont⟩ := searchLabeledDate_sound _ _ _ hs
      exact ⟨d', hshape, hcont, by simp only [extract_filing_date, hs]⟩
  · intro hne
    rcases hs : searchLabeledDate "Last Date: ".toList t.toList with _ | d'
    · simp only [extract_filing_date, hs]
    · obtain ⟨hshape, hcont⟩ := searchLabeledDate_sound _ _ _ hs
      exact absurd ⟨d', hshape, hcont⟩ hne
  · rintro ⟨d, hd, hc⟩
    rcases hs : searchLabeledDate "NEXT DATE: ".toList t.toList with _ | d'
    · have hsome := searchLabeledDate_isSome "NEXT DATE: ".toList t.toList d hd hc
      rw [hs] at hsome
      cases hsome
    · obtain ⟨hshape, hcont⟩ := searchLabeledDate_sound _ _ _ hs
      exact ⟨d', hshape, hcont, by simp only [extract_next_hearing_date, hs]⟩
  · intro hne hna
    rcases hs : searchLabeledDate "NEXT DATE: ".toList t.toList with _ | d'
    · simp only [extract_next_hearing_date, hs, hna, if_true]
    · obtain ⟨hshape, hcont⟩ := searchLabeledDate_sound _ _ _ hs
      exact absurd ⟨d', hshape, hcont⟩ hne
  · intro hne hna
    rcases hs : searchLabeledDate "NEXT DATE: ".toList t.toList with _ | d'
    · simp only [extract_next_hearing_date, hs, hna, Bool.false_eq_true, if_false]
    · obtain ⟨hshape, hcont⟩ := searchLabeledDate_sound _ _ _ hs
      exact absurd ⟨d', hshape, hcont⟩ hne

theorem listing_info_extraction_witness :
    (∃ d, isDateString d = true
        ∧ containsSub ("Last Date: ".toList ++ d.toList)
            ("Case status Last Date: 10/03/2023 hearing".toList) = true)
      ∧ (∃ d, isDateString d = true
          ∧ containsSub ("Last Date: ".toList ++ d.toList)
              ("Case status Last Date: 10/03/2023 hearing".toList) = true
          ∧ extract_filing_date "Case status Last Date: 10/03/2023 hearing" = d) :=
  ⟨⟨"10/03/2023", by decide, by decide⟩,
   (listing_info_extraction.1 "Case status Last Date: 10/03/2023 hearing").1
     ⟨"10/03/2023", by decide, by decide⟩⟩

/-! ## Claim C7: parse_order_links row-by-row characterization -/

theorem orderLinkRows_eq_filterMap (rows : List Row) :
    orderLinkRows rows = rows.filterMap specOrderLinkOfRow := by
  induction rows with
  | nil => rfl
  | cons tr rest ih =>
    rw [List.filterMap_cons]
    rcases htds : tr.tds with _ | ⟨td0, _ | ⟨td1, _ | ⟨td2, tds'⟩⟩⟩
    · simp [orderLinkRows, specOrderLinkOfRow, htds, ih]
    · simp [orderLinkRows, specOrderLinkOfRow, htds, ih]
    · simp [orderLinkRows, specOrderLinkOfRow, htds, ih]
    · rcases hanc : td1.anchors.find? (fun a => a.href.isSome) with _ | a
      · simp [orderLinkRows, specOrderLinkOfRow, htds, hanc, ih]
      · rcases hhr : a.href with _ | href
        · simp [orderLinkRows, specOrderLinkOfRow, htds, hanc, hhr, ih]
        · simp [orderLinkRows, specOrderLinkOfRow, htds, hanc, hhr, ih]

/-- C7: `parse_order_links` is exactly a filterMap, in document order, over
the caseTable's body rows: one {date, pdf_url} pair per row with at least
3 columns and an href-bearing anchor in the second column (href resolved
against the base origin, date from the third column's text); rows without
a qualifying anchor contribute nothing and raise nothing.  Includes the
spec's example page: only row 2 qualifies, yielding date "24/01/2024" and
an absolute pdf URL. -/
theorem parse_order_links_spec :
    (∀ p : Page, parse_order_links p
        = ((findCaseTable p.tables).map
            (fun t => t.tbodyRows.filterMap specOrderLinkOfRow)).getD [])
      ∧ parse_order_links orderPageFx
          = [{ date := "24/01/2024",
               pdf_url := "https://delhihighcourt.nic.in/app/showlogo/123.pdf" }] := by
  constructor
  · intro p
    unfold parse_order_links
    rcases hft : findCaseTable p.tables with _ | t <;>
      simp [hft, orderLinkRows_eq_filterMap]
  · rfl
